import Mathlib

/-!
Shallow embedding of the SFR_GUI spectrometer application core
(src/core/analysis.py, src/core/models.py, src/core/constants.py,
src/core/repository.py, src/core/devices.py, src/app/threads.py,
src/ui/controllers.py) together with theorems settling the frozen claims.

Numeric model: a numpy float is modelled as `FVal`, either the
not-a-number sentinel `nan` or a finite rational `fin q`.  Arithmetic on
`FVal` propagates `nan` exactly as IEEE arithmetic does on the code
paths the program exercises.  Arrays are Lean lists.
-/

namespace SFR

/-- A numpy floating value: either NaN or a finite rational. -/
inductive FVal where
  | nan : FVal
  | fin : ℚ → FVal
deriving DecidableEq, Repr

/-- `True` exactly on finite values. -/
def FVal.isFin : FVal → Bool
  | .nan => false
  | .fin _ => true

/-- Elementwise float subtraction: NaN propagates. -/
def FVal.sub : FVal → FVal → FVal
  | .fin a, .fin b => .fin (a - b)
  | _, _ => .nan

/-- Float multiplication: NaN propagates. -/
def FVal.mul : FVal → FVal → FVal
  | .fin a, .fin b => .fin (a * b)
  | _, _ => .nan

/-- Float division: NaN propagates.  Division by the finite zero is only
reached in the source shielded by a `np.where(den != 0, ...)` guard, so the
zero branch (IEEE would give ±inf or NaN) is mapped to the sentinel. -/
def FVal.div : FVal → FVal → FVal
  | .fin a, .fin b => if b = 0 then .nan else .fin (a / b)
  | _, _ => .nan

/-- Float `<` comparison: any comparison involving NaN is false. -/
def FVal.ltb : FVal → FVal → Bool
  | .fin a, .fin b => decide (a < b)
  | _, _ => false

/-- `np.isclose` default relative tolerance. -/
def np_rtol : ℚ := 1 / 100000

/-- `np.isclose` default absolute tolerance. -/
def np_atol : ℚ := 1 / 100000000

/-- `np.isclose(a, b)` with default tolerances; false whenever either side
is NaN (`equal_nan=False` default). -/
def isclose (a b : FVal) : Bool :=
  match a, b with
  | .fin a, .fin b => decide (|a - b| ≤ np_atol + np_rtol * |b|)
  | _, _ => false

/-- `np.allclose` on two equal-length 1-D arrays. -/
def allclose (xs ys : List FVal) : Bool :=
  (List.zipWith isclose xs ys).all (fun b => b)

/-- `np.nanmax` of a 1-D array: maximum over the non-NaN entries; NaN when
every entry is NaN.  (The empty-array error case is shielded by a size
guard at the one call site in `saturation_percent`.) -/
def nanmax (xs : List FVal) : FVal :=
  match (xs.filterMap (fun x => match x with | .nan => none | .fin q => some q)).max? with
  | some m => .fin m
  | none => .nan

/-- The finite (non-NaN) rational entries of an array, in order. -/
def finVals (xs : List FVal) : List ℚ :=
  xs.filterMap (fun x => match x with | .nan => none | .fin q => some q)

/-- core/constants.py: `VIS_NIR_SPLIT_NM = 1050.0`. -/
def VIS_NIR_SPLIT_NM : ℚ := 1050

/-- core/constants.py: `FULL_SCALE_COUNTS = 16200.0`. -/
def FULL_SCALE_COUNTS : ℚ := 16200

/-- core/constants.py: `class ChannelKind(Enum)`. -/
inductive ChannelKind where
  | VIS : ChannelKind
  | NIR : ChannelKind
deriving DecidableEq, Repr

/-- The enum's `.value` string. -/
def ChannelKind.value : ChannelKind → String
  | .VIS => "VIS"
  | .NIR => "NIR"

/-- core/models.py: `SpectrometerSettings` frozen dataclass with its field
defaults. -/
structure SpectrometerSettings where
  start_pixel : Int := 0
  stop_pixel : Int := 0
  exposure_ms : ℚ := 1
  n_averages : Int := 1
  cordyn_dark : Bool := false
  smooth_pix : Int := 0
  smooth_model : Int := 0
  saturation_detection : Bool := false
  trigger_mode : Int := 0
  trigger_source : Int := 0
  trigger_source_type : Int := 0
deriving DecidableEq, Repr

/-- core/models.py: `Spectrum` frozen dataclass (frozen: no mutation after
construction, mirrored here by Lean values being immutable). -/
structure Spectrum where
  wavelength_nm : List FVal
  counts : List FVal
  ts_iso : String
  settings_snapshot : SpectrometerSettings
  serial : Option String
  role : String
deriving DecidableEq, Repr

/-- The errors the analysis and repository functions can raise.
`validationError` stands for the `ValueError` the spec's taxonomy calls
ValidationError (wavelength-grid mismatch); `broadcastError` for the
`ValueError` numpy raises on incompatible elementwise shapes;
`formatError` for the `ValueError` of an unparsable `np.loadtxt` input;
`indexError` for the `IndexError` of an out-of-range column index. -/
inductive PyError where
  | validationError : String → PyError
  | broadcastError : PyError
  | formatError : PyError
  | indexError : PyError
deriving DecidableEq, Repr

/-- Elementwise `a - b` on two 1-D arrays; numpy raises a broadcast error on
mismatched lengths (the length-1 broadcasting special case never arises in
this program, every `Spectrum` built by it having equal-length arrays). -/
def arrSub (xs ys : List FVal) : Except PyError (List FVal) :=
  if xs.length = ys.length then
    .ok (List.zipWith FVal.sub xs ys)
  else .error .broadcastError

/-- The elementwise body of `np.where(den != 0, num / den, np.nan)`:
the sentinel where the denominator is the finite zero, the IEEE quotient
elsewhere (a NaN denominator compares `!= 0` as true and the quotient is
then NaN). -/
def whereDiv (n d : FVal) : FVal :=
  if d = FVal.fin 0 then FVal.nan else n.div d

/-- core/analysis.py: `saturation_percent(counts, full_scale)`.
`counts is None` is modelled by `none`. -/
def saturation_percent (counts : Option (List FVal))
    (full_scale : ℚ := FULL_SCALE_COUNTS) : FVal :=
  match counts with
  | none => .fin 0
  | some cs =>
    if cs.length = 0 then .fin 0
    else ((nanmax cs).div (.fin full_scale)).mul (.fin 100)

/-- core/analysis.py: `compute_reflectance(sample, reference, dark)`.
Checks the three wavelength grids for equal shape, then for `np.allclose`
value agreement, then computes `np.where(den != 0, num/den, np.nan)` with
`num = sample.counts - dark.counts`, `den = reference.counts - dark.counts`.
Note `den != 0` is true for a NaN denominator (IEEE), in which case the
division itself yields NaN. -/
def compute_reflectance (sample reference dark : Spectrum) :
    Except PyError (List FVal × List FVal) := do
  let lam_s := sample.wavelength_nm
  let lam_r := reference.wavelength_nm
  let lam_d := dark.wavelength_nm
  if lam_s.length ≠ lam_r.length ∨ lam_s.length ≠ lam_d.length then
    throw (.validationError "Wavelength grids must match exactly (shape mismatch).")
  else if ¬ (allclose lam_s lam_r ∧ allclose lam_s lam_d) then
    throw (.validationError "Wavelength grids must match exactly (values mismatch).")
  else
    let num ← arrSub sample.counts dark.counts
    let den ← arrSub reference.counts dark.counts
    let refl := List.zipWith whereDiv num den
    return (lam_s, refl)

/-! ## Repository (core/repository.py) -/

/-- One whitespace/comma token of a CSV data line: either a numeric value
or unparsable text. -/
inductive Cell where
  | num : FVal → Cell
  | junk : Cell
deriving DecidableEq, Repr

/-- A CSV file on disk, as the loader sees it: its filename, its
comment lines (prefixed `# `), and its tokenized non-comment non-blank
data lines. -/
structure CSVFile where
  name : String
  comments : List String
  rows : List (List Cell)
deriving DecidableEq, Repr

/-- The array `np.loadtxt` yields: 0-, 1- or 2-dimensional. -/
inductive NDArr where
  | scalar : FVal → NDArr
  | vec : List FVal → NDArr
  | mat : List (List FVal) → NDArr
deriving DecidableEq, Repr

/-- Every token of every data row is numeric. -/
def allNumeric (rows : List (List Cell)) : Bool :=
  rows.all (fun r => r.all (fun c => match c with | .num _ => true | .junk => false))

/-- Every data row has the same width as the first. -/
def uniformWidth (rows : List (List Cell)) : Bool :=
  rows.all (fun r => r.length = (rows.headD []).length)

/-- The numeric values of the data rows. -/
def numericVals (rows : List (List Cell)) : List (List FVal) :=
  rows.map (fun r => r.filterMap (fun c => match c with | .num v => some v | .junk => none))

/-- `np.loadtxt(path, delimiter=",", comments="#")` on the data rows of a
file (comment lines already stripped).  Raises on a non-numeric token or on
rows of inconsistent width; squeezes the result: a single value gives a
0-D array, a single row or a single column gives a 1-D array, an empty
file gives an empty 1-D array. -/
def loadtxt (rows : List (List Cell)) : Except PyError NDArr :=
  if ¬ allNumeric rows then .error .formatError
  else if ¬ uniformWidth rows then .error .formatError
  else
    match numericVals rows with
    | [] => .ok (.vec [])
    | [[v]] => .ok (.scalar v)
    | [r] => .ok (.vec r)
    | v :: vs =>
      if ((v :: vs).headD []).length = 1 then .ok (.vec ((v :: vs).filterMap List.head?))
      else .ok (.mat (v :: vs))

/-- Column `j` of a 2-D array, `data[:, j]`; IndexError when some row is
too short (in numpy: when `j` is outside the uniform width, or the width
is zero). -/
def column (rows : List (List FVal)) (j : Nat) : Except PyError (List FVal) :=
  if rows.all (fun r => j < r.length) then
    .ok (rows.filterMap (fun r => r.get? j))
  else .error .indexError

/-- core/repository.py: `_infer_channel_from_file_and_data(path, wavelength_nm)`.
`path.name.upper()` is modelled on the character list of the filename, and
`str.startswith` by `List.isPrefixOf`. -/
def infer_channel_from_file_and_data (name : String) (wavelength_nm : List FVal) :
    ChannelKind :=
  let upper := name.toList.map Char.toUpper
  if List.isPrefixOf "VIS_".toList upper ∨ List.isPrefixOf "REP_VIS_".toList upper then
    ChannelKind.VIS
  else if List.isPrefixOf "NIR_".toList upper ∨ List.isPrefixOf "REP_NIR_".toList upper then
    ChannelKind.NIR
  else if (nanmax wavelength_nm).ltb (.fin VIS_NIR_SPLIT_NM) then ChannelKind.VIS
  else ChannelKind.NIR

/-- core/repository.py: `_settings_to_header_lines(settings)` (content kept
abstract per field; only its presence in the header matters here). -/
def settings_to_header_lines (settings : SpectrometerSettings) : List String :=
  [ "start_pixel: " ++ toString settings.start_pixel,
    "stop_pixel: " ++ toString settings.stop_pixel,
    "exposure_ms: " ++ toString settings.exposure_ms,
    "n_averages: " ++ toString settings.n_averages,
    "cordyn_dark: " ++ toString (if settings.cordyn_dark then (1 : Nat) else 0),
    "smooth_pix: " ++ toString settings.smooth_pix,
    "smooth_model: " ++ toString settings.smooth_model,
    "saturation_detection: " ++ toString (if settings.saturation_detection then (1 : Nat) else 0),
    "trigger_mode: " ++ toString settings.trigger_mode,
    "trigger_source: " ++ toString settings.trigger_source,
    "trigger_source_type: " ++ toString settings.trigger_source_type ]

/-- core/repository.py: `save_spectrum_csv(channel, spectrum, folder, name_hint)`.
The wall-clock timestamp token `ts` is an input.  Writes
`np.column_stack((wavelength_nm, counts))` as the data rows under a
comment header; the filename is `{channel.value}_{base}_{ts}.csv`. -/
def save_spectrum_csv (channel : ChannelKind) (spectrum : Spectrum)
    (ts : String) (name_hint : Option String := none) : CSVFile :=
  let role_token := spectrum.role.toUpper
  let base_name := match name_hint with
    | some h => h.trim
    | none => role_token
  let fname := channel.value ++ "_" ++ base_name ++ "_" ++ ts ++ ".csv"
  let header_lines :=
    [ "wavelength,counts",
      "channel: " ++ channel.value,
      "role: " ++ spectrum.role,
      "serial: " ++ (spectrum.serial.getD ""),
      "timestamp: " ++ spectrum.ts_iso ]
    ++ settings_to_header_lines spectrum.settings_snapshot
  { name := fname,
    comments := header_lines,
    rows := (List.zip spectrum.wavelength_nm spectrum.counts).map
      (fun p => [Cell.num p.1, Cell.num p.2]) }

/-- The `if data.ndim == 1: data = data.reshape(1, -1)` step followed by
2-D indexing: a 1-D array becomes a single row; a 0-D array is left 0-D,
on which the subsequent column indexing raises IndexError. -/
def reshape2d (data : NDArr) : Except PyError (List (List FVal)) :=
  match data with
  | .scalar _ => .error .indexError
  | .vec vs => .ok [vs]
  | .mat rs => .ok rs

/-- core/repository.py: `load_spectrum_csv(path)`.  The wall-clock ISO
timestamp stamped on the loaded spectrum is an input.  Parses the file with
`loadtxt`, reshapes a 1-D result to one row, takes columns 0 and 1 as
wavelength and counts, infers the channel, and builds a Spectrum with
default settings, no serial and role `"sample"`. -/
def load_spectrum_csv (file : CSVFile) (ts : String) :
    Except PyError (ChannelKind × Spectrum) := do
  let data ← loadtxt file.rows
  let data2 ← reshape2d data
  let wavelength ← column data2 0
  let counts ← column data2 1
  let settings : SpectrometerSettings := {}
  let chan := infer_channel_from_file_and_data file.name wavelength
  let spectrum : Spectrum :=
    { wavelength_nm := wavelength,
      counts := counts,
      ts_iso := ts,
      settings_snapshot := settings,
      serial := none,
      role := "sample" }
  return (chan, spectrum)

/-! ## Device interface (core/devices.py) -/

/-- The driver-visible error of the device layer (`RuntimeError` in the
source; HardwareError in the spec's taxonomy). -/
inductive HwError where
  | invalidHandle : HwError
  | noDeviceInfo : HwError
  | driverError : Int → HwError
deriving DecidableEq, Repr

/-- One call's worth of responses from the vendor `avaspec` driver,
treated as an opaque external collaborator. -/
structure AvaspecDriver where
  getNumPixels : Int
  getLambda : List FVal
  prepareResult : Int
  measureResult : Int
  scopeData : List FVal
deriving Repr

/-- core/devices.py: the mutable fields of `Spectrometer`. -/
structure Spectrometer where
  handle : Option Int := none
  serial : Option String := none
  num_pixels : Nat := 0
  wavelengths : Option (List FVal) := none
deriving Repr

/-- `handle` truthy and positive, the validity test both device methods
perform (`if not self.handle or self.handle <= 0`). -/
def Spectrometer.handleValid (dev : Spectrometer) : Bool :=
  match dev.handle with
  | none => false
  | some h => decide (0 < h) ∧ decide (h ≠ 0)

/-- core/devices.py: `Spectrometer.get_device_info`.  Stores the pixel
count and the wavelength table truncated to it (`raw[: self.num_pixels]`). -/
def get_device_info (dev : Spectrometer) (drv : AvaspecDriver) :
    Except HwError Spectrometer := do
  if ¬ dev.handleValid then throw .invalidHandle
  else if drv.getNumPixels < 1 then throw (.driverError drv.getNumPixels)
  else
    let n := drv.getNumPixels.toNat
    return { dev with num_pixels := n, wavelengths := some (drv.getLambda.take n) }

/-- core/devices.py: `Spectrometer.single_measurement`.  Returns the stored
wavelength table together with the scope data truncated to the pixel count
(`c_spec[: self.num_pixels]`); fails if the handle is invalid, device info
was never fetched, or a driver call reports a negative code. -/
def single_measurement (dev : Spectrometer) (drv : AvaspecDriver) :
    Except HwError (List FVal × List FVal) := do
  if ¬ dev.handleValid then throw .invalidHandle
  else
    match dev.wavelengths with
    | none => throw .noDeviceInfo
    | some lam =>
      if dev.num_pixels = 0 then throw .noDeviceInfo
      else if drv.prepareResult < 0 then throw (.driverError drv.prepareResult)
      else if drv.measureResult < 0 then throw (.driverError drv.measureResult)
      else return (lam, drv.scopeData.take dev.num_pixels)

/-! ## Repeated acquisition (app/threads.py, ui/controllers.py) -/

/-- app/threads.py: the event trace of `RepeatedAcquisitionThread.run`.
For each round `i < count` taken in order, if the cooperative `_running`
flag (whose value at the top of round `i` is `runningAt i`) is still set,
the thread measures and emits `(VIS, i)` when the VIS device has a handle
and then `(NIR, i)` when the NIR device has one; the first cleared flag
breaks the loop. -/
def repeatedRunEmits (visConn nirConn : Bool) (runningAt : Nat → Bool) :
    Nat → Nat → List (ChannelKind × Nat)
  | 0, _ => []
  | Nat.succ k, i =>
    if runningAt i then
      (if visConn then [(ChannelKind.VIS, i)] else [])
        ++ (if nirConn then [(ChannelKind.NIR, i)] else [])
        ++ repeatedRunEmits visConn nirConn runningAt k (i + 1)
    else []

/-- The per-channel repeats buffers of the two `ChannelState`s
(`repeats_buffer`), reduced to the emitted events they accumulate. -/
structure RepeatsBuffers where
  vis : List (ChannelKind × Nat)
  nir : List (ChannelKind × Nat)
deriving DecidableEq, Repr

/-- ui/controllers.py: `start_repeated` clears both channels'
`repeats_buffer` before starting the thread. -/
def clearedBuffers : RepeatsBuffers := { vis := [], nir := [] }

/-- ui/controllers.py: `_on_repeated_spectrum` appends each emitted event
to the emitting channel's `repeats_buffer`. -/
def applyRepeatEvents (events : List (ChannelKind × Nat)) (st : RepeatsBuffers) :
    RepeatsBuffers :=
  events.foldl
    (fun acc ev =>
      match ev.1 with
      | ChannelKind.VIS => { acc with vis := acc.vis ++ [ev] }
      | ChannelKind.NIR => { acc with nir := acc.nir ++ [ev] })
    st

/-- ui/controllers.py: `_save_repeated_results`, reduced to the sequence of
`save_repeats_csv` calls it makes: one for VIS if its buffer is non-empty,
then one for NIR if its buffer is non-empty. -/
def saveRepeatedCalls (st : RepeatsBuffers) : List ChannelKind :=
  (if st.vis ≠ [] then [ChannelKind.VIS] else [])
    ++ (if st.nir ≠ [] then [ChannelKind.NIR] else [])

/-! ## Shared lemmas -/

/-- `nanmax` is the `max?` of the finite entries, with NaN as fallback. -/
theorem nanmax_eq_finVals_max (xs : List FVal) :
    nanmax xs = match (finVals xs).max? with
      | some m => FVal.fin m
      | none => FVal.nan := rfl

/-- Mapping `FVal.fin` over rationals and taking the finite entries is the
identity. -/
theorem finVals_map_fin (cs : List ℚ) : finVals (cs.map FVal.fin) = cs := by
  induction cs with
  | nil => rfl
  | cons c cs ih => simp [finVals] at ih ⊢; exact ih

/-- A finite value is close to itself. -/
theorem isclose_self_fin (q : ℚ) : isclose (FVal.fin q) (FVal.fin q) = true := by
  simp only [isclose, decide_eq_true_eq]
  have h1 : (0 : ℚ) < np_atol := by norm_num [np_atol]
  have h2 : (0 : ℚ) ≤ np_rtol * |q| :=
    mul_nonneg (by norm_num [np_rtol]) (abs_nonneg q)
  simp only [sub_self, abs_zero]
  linarith

/-- An all-finite array is `allclose` to itself. -/
theorem allclose_self (xs : List FVal) (h : xs.all FVal.isFin = true) :
    allclose xs xs = true := by
  induction xs with
  | nil => rfl
  | cons x xs ih =>
    simp only [List.all_cons, Bool.and_eq_true] at h
    cases x with
    | nan => simp [FVal.isFin] at h
    | fin q =>
      simp only [allclose, List.zipWith_cons_cons, List.all_cons, Bool.and_eq_true]
      exact ⟨isclose_self_fin q, ih h.2⟩

/-- On finite counts with known maximum, `saturation_percent` is
`max/full_scale*100`. -/
theorem saturation_percent_of_max (fs : ℚ) (hfs : 0 < fs) (cs : List ℚ) (m : ℚ)
    (hm : cs.max? = some m) :
    saturation_percent (some (cs.map FVal.fin)) fs = FVal.fin (m / fs * 100) := by
  have hne : cs ≠ [] := by
    rintro rfl
    simp at hm
  have hlen : (cs.map FVal.fin).length ≠ 0 := by
    simpa using fun h => hne (List.length_eq_zero.mp h)
  simp only [saturation_percent, if_neg hlen]
  rw [nanmax_eq_finVals_max, finVals_map_fin, hm]
  simp only [FVal.div, FVal.mul, if_neg hfs.ne']

/-! ## Claim theorems -/

/-- C5: `saturation_percent` returns 0 on an absent or empty counts array,
and `max(counts)/full_scale*100` on a non-empty array of finite counts,
never raising; in particular `saturation_percent([])` is 0 and
`saturation_percent([0, 8100, 16200])` at full scale 16200 is 100. -/
theorem sfr_C5_saturation_percent (fs : ℚ) (hfs : 0 < fs) :
    saturation_percent none fs = FVal.fin 0 ∧
    saturation_percent (some []) fs = FVal.fin 0 ∧
    saturation_percent (some [FVal.fin 0, FVal.fin 8100, FVal.fin 16200]) 16200
      = FVal.fin 100 ∧
    ∀ (cs : List ℚ) (m : ℚ), cs.max? = some m →
      saturation_percent (some (cs.map FVal.fin)) fs = FVal.fin (m / fs * 100) := by
  refine ⟨rfl, rfl, ?_, fun cs m hm => saturation_percent_of_max fs hfs cs m hm⟩
  have hmax : ([0, 8100, 16200] : List ℚ).max? = some 16200 := by
    norm_num [List.max?, List.foldl, max_def]
  have h := saturation_percent_of_max 16200 (by norm_num) [0, 8100, 16200] 16200 hmax
  have harr : (([0, 8100, 16200] : List ℚ).map FVal.fin)
      = [FVal.fin 0, FVal.fin 8100, FVal.fin 16200] := rfl
  rw [harr] at h
  rw [h]
  norm_num

/-- C10: on a counts array holding at least one finite (non-NaN) value,
`saturation_percent` is computed from the maximum of the finite entries
only, so NaN counts do not propagate into the saturation value. -/
theorem sfr_C10_saturation_nan_ignoring (cs : List FVal) (fs : ℚ)
    (hfs : 0 < fs) (hx : ∃ q, FVal.fin q ∈ cs) :
    ∃ m : ℚ, (finVals cs).max? = some m ∧
      saturation_percent (some cs) fs = FVal.fin (m / fs * 100) := by
  obtain ⟨q, hq⟩ := hx
  have hmem : q ∈ finVals cs := by
    simp only [finVals, List.mem_filterMap]
    exact ⟨FVal.fin q, hq, rfl⟩
  have hsome : (finVals cs).max?.isSome := List.isSome_max?_of_mem hmem
  obtain ⟨m, hm⟩ := Option.isSome_iff_exists.mp hsome
  refine ⟨m, hm, ?_⟩
  have hne : cs.length ≠ 0 := by
    intro h
    rw [List.length_eq_zero.mp h] at hq
    simp at hq
  simp only [saturation_percent, if_neg hne]
  rw [nanmax_eq_finVals_max, hm]
  simp only [FVal.div, FVal.mul, if_neg hfs.ne']

/-- C10 witness: `[NaN, 8100]` at full scale 16200 yields 50 percent. -/
theorem sfr_C10_witness :
    (0 : ℚ) < 16200 ∧ (∃ q, FVal.fin q ∈ [FVal.nan, FVal.fin 8100]) ∧
    ∃ m : ℚ, (finVals [FVal.nan, FVal.fin 8100]).max? = some m ∧
      saturation_percent (some [FVal.nan, FVal.fin 8100]) 16200
        = FVal.fin (m / 16200 * 100) :=
  ⟨by decide, ⟨8100, by simp⟩,
    sfr_C10_saturation_nan_ignoring [FVal.nan, FVal.fin 8100] 16200
      (by decide) ⟨8100, by simp⟩⟩

/-- C5 witness: the stated conclusions at full scale 16200, including
`max([5, 3])/16200*100`. -/
theorem sfr_C5_witness :
    (0 : ℚ) < 16200 ∧
    (saturation_percent none 16200 = FVal.fin 0 ∧
     saturation_percent (some []) 16200 = FVal.fin 0 ∧
     saturation_percent (some [FVal.fin 0, FVal.fin 8100, FVal.fin 16200]) 16200
       = FVal.fin 100 ∧
     ∀ (cs : List ℚ) (m : ℚ), cs.max? = some m →
       saturation_percent (some (cs.map FVal.fin)) 16200 = FVal.fin (m / 16200 * 100)) :=
  ⟨by decide, sfr_C5_saturation_percent 16200 (by decide)⟩

/-- A name starting (after uppercasing) with `NIR_` or `REP_NIR_` cannot
also start with `VIS_` or `REP_VIS_`. -/
theorem no_vis_start_of_nir_start (u : List Char)
    (h : List.isPrefixOf "NIR_".toList u = true ∨
      List.isPrefixOf "REP_NIR_".toList u = true) :
    ¬ (List.isPrefixOf "VIS_".toList u = true ∨
      List.isPrefixOf "REP_VIS_".toList u = true) := by
  rcases h with h | h <;> rw [List.isPrefixOf_iff_prefix] at h <;>
    obtain ⟨t, rfl⟩ := h <;> rintro (hv | hv) <;> simp [List.isPrefixOf] at hv

/-- C4: channel inference is by filename prefix first — `VIS_`/`REP_VIS_`
give VIS, `NIR_`/`REP_NIR_` give NIR, case-insensitively — and otherwise
falls back to the wavelength heuristic: VIS exactly when the maximum
wavelength is below the 1050 nm split. -/
theorem sfr_C4_channel_inference :
    (∀ (name : String) (wl : List FVal),
      (List.isPrefixOf "VIS_".toList (name.toList.map Char.toUpper) = true ∨
       List.isPrefixOf "REP_VIS_".toList (name.toList.map Char.toUpper) = true) →
      infer_channel_from_file_and_data name wl = ChannelKind.VIS) ∧
    (∀ (name : String) (wl : List FVal),
      (List.isPrefixOf "NIR_".toList (name.toList.map Char.toUpper) = true ∨
       List.isPrefixOf "REP_NIR_".toList (name.toList.map Char.toUpper) = true) →
      infer_channel_from_file_and_data name wl = ChannelKind.NIR) ∧
    (∀ (name : String) (wl : List FVal),
      List.isPrefixOf "VIS_".toList (name.toList.map Char.toUpper) = false →
      List.isPrefixOf "REP_VIS_".toList (name.toList.map Char.toUpper) = false →
      List.isPrefixOf "NIR_".toList (name.toList.map Char.toUpper) = false →
      List.isPrefixOf "REP_NIR_".toList (name.toList.map Char.toUpper) = false →
      infer_channel_from_file_and_data name wl =
        (if (nanmax wl).ltb (FVal.fin VIS_NIR_SPLIT_NM) then ChannelKind.VIS
         else ChannelKind.NIR)) := by
  refine ⟨?_, ?_, ?_⟩
  · intro name wl h
    simp only [infer_channel_from_file_and_data]
    rw [if_pos h]
  · intro name wl h
    simp only [infer_channel_from_file_and_data]
    rw [if_neg (no_vis_start_of_nir_start _ h), if_pos h]
  · intro name wl h1 h2 h3 h4
    simp only [infer_channel_from_file_and_data]
    rw [if_neg (show ¬_ by
        rintro (hc | hc) <;> simp only [h1, h2, Bool.false_eq_true] at hc),
      if_neg (show ¬_ by
        rintro (hc | hc) <;> simp only [h3, h4, Bool.false_eq_true] at hc)]

/-- C4 witness: `sample.csv` has no recognized prefix, so the wavelength
heuristic applies; with max wavelength 800 it infers VIS, with 1200 NIR,
while a `VIS_` prefix wins over the heuristic. -/
theorem sfr_C4_witness :
    (List.isPrefixOf "VIS_".toList ("sample.csv".toList.map Char.toUpper) = false) ∧
    (List.isPrefixOf "REP_VIS_".toList ("sample.csv".toList.map Char.toUpper) = false) ∧
    (List.isPrefixOf "NIR_".toList ("sample.csv".toList.map Char.toUpper) = false) ∧
    (List.isPrefixOf "REP_NIR_".toList ("sample.csv".toList.map Char.toUpper) = false) ∧
    infer_channel_from_file_and_data "sample.csv" [FVal.fin 800] =
      (if (nanmax [FVal.fin 800]).ltb (FVal.fin VIS_NIR_SPLIT_NM) then ChannelKind.VIS
       else ChannelKind.NIR) ∧
    infer_channel_from_file_and_data "sample.csv" [FVal.fin 800] = ChannelKind.VIS ∧
    infer_channel_from_file_and_data "sample.csv" [FVal.fin 1200] = ChannelKind.NIR ∧
    infer_channel_from_file_and_data "vis_band.csv" [FVal.fin 1200] = ChannelKind.VIS :=
  ⟨by decide, by decide, by decide, by decide,
    sfr_C4_channel_inference.2.2 "sample.csv" [FVal.fin 800]
      (by decide) (by decide) (by decide) (by decide),
    by decide, by decide, by decide⟩

/-- When the three grids agree in shape and (within tolerance) value and
the counts arrays have matching lengths, `compute_reflectance` succeeds,
returning the sample's grid and the guarded elementwise quotient. -/
theorem compute_reflectance_ok (sample reference dark : Spectrum)
    (hlr : sample.wavelength_nm.length = reference.wavelength_nm.length)
    (hld : sample.wavelength_nm.length = dark.wavelength_nm.length)
    (hcr : allclose sample.wavelength_nm reference.wavelength_nm = true)
    (hcd : allclose sample.wavelength_nm dark.wavelength_nm = true)
    (hsd : sample.counts.length = dark.counts.length)
    (hrd : reference.counts.length = dark.counts.length) :
    compute_reflectance sample reference dark =
      .ok (sample.wavelength_nm,
        List.zipWith whereDiv
          (List.zipWith FVal.sub sample.counts dark.counts)
          (List.zipWith FVal.sub reference.counts dark.counts)) := by
  simp only [compute_reflectance]
  rw [if_neg (show ¬_ by rintro (hc | hc) <;> [exact hc hlr; exact hc hld]),
    if_neg (show ¬_ from fun hc => hc ⟨hcr, hcd⟩)]
  simp only [arrSub, if_pos hsd, if_pos hrd]
  rfl

/-- Mismatched grid shapes make `compute_reflectance` raise the
shape-mismatch ValidationError. -/
theorem compute_reflectance_shape_error (sample reference dark : Spectrum)
    (h : sample.wavelength_nm.length ≠ reference.wavelength_nm.length ∨
      sample.wavelength_nm.length ≠ dark.wavelength_nm.length) :
    compute_reflectance sample reference dark =
      .error (.validationError
        "Wavelength grids must match exactly (shape mismatch).") := by
  simp only [compute_reflectance]
  rw [if_pos h]
  rfl

/-- Equal-shape grids whose values disagree beyond `np.allclose` tolerance
make `compute_reflectance` raise the values-mismatch ValidationError. -/
theorem compute_reflectance_values_error (sample reference dark : Spectrum)
    (hlr : sample.wavelength_nm.length = reference.wavelength_nm.length)
    (hld : sample.wavelength_nm.length = dark.wavelength_nm.length)
    (h : ¬ (allclose sample.wavelength_nm reference.wavelength_nm = true ∧
      allclose sample.wavelength_nm dark.wavelength_nm = true)) :
    compute_reflectance sample reference dark =
      .error (.validationError
        "Wavelength grids must match exactly (values mismatch).") := by
  simp only [compute_reflectance]
  rw [if_neg (show ¬_ by rintro (hc | hc) <;> [exact hc hlr; exact hc hld]),
    if_pos h]
  rfl

/-- C1: on sample/reference/dark Spectra with matching finite wavelength
grids (and the per-Spectrum length invariant), `compute_reflectance`
returns without raising; at each index the result is the NaN sentinel when
`reference.counts[i] - dark.counts[i] = 0` and the finite quotient
`(sample.counts[i] - dark.counts[i]) / (reference.counts[i] - dark.counts[i])`
otherwise. -/
theorem sfr_C1_reflectance_elementwise (sample reference dark : Spectrum)
    (hs : sample.wavelength_nm.length = sample.counts.length)
    (hr : reference.wavelength_nm.length = reference.counts.length)
    (hd : dark.wavelength_nm.length = dark.counts.length)
    (hgr : sample.wavelength_nm = reference.wavelength_nm)
    (hgd : sample.wavelength_nm = dark.wavelength_nm)
    (hfin : sample.wavelength_nm.all FVal.isFin = true) :
    ∃ refl : List FVal,
      compute_reflectance sample reference dark = .ok (sample.wavelength_nm, refl) ∧
      refl.length = sample.counts.length ∧
      ∀ (i : ℕ) (qs qr qd : ℚ),
        sample.counts.get? i = some (.fin qs) →
        reference.counts.get? i = some (.fin qr) →
        dark.counts.get? i = some (.fin qd) →
        (qr - qd = 0 → refl.get? i = some FVal.nan) ∧
        (qr - qd ≠ 0 → refl.get? i = some (.fin ((qs - qd) / (qr - qd)))) := by
  have hsd : sample.counts.length = dark.counts.length := by
    rw [← hs, ← hd, hgd]
  have hrd : reference.counts.length = dark.counts.length := by
    rw [← hr, ← hd, ← hgr, hgd]
  have hok := compute_reflectance_ok sample reference dark
    (by rw [hgr]) (by rw [hgd])
    (by rw [hgr]; exact allclose_self _ (hgr ▸ hfin))
    (by rw [hgd]; exact allclose_self _ (hgd ▸ hfin))
    hsd hrd
  refine ⟨_, hok, ?_, ?_⟩
  · simp [List.length_zipWith, hsd, hrd]
  · intro i qs qr qd hqs hqr hqd
    have hnum : (List.zipWith FVal.sub sample.counts dark.counts).get? i
        = some (FVal.fin (qs - qd)) := by
      rw [List.get?_zipWith', hqs, hqd]
      rfl
    have hden : (List.zipWith FVal.sub reference.counts dark.counts).get? i
        = some (FVal.fin (qr - qd)) := by
      rw [List.get?_zipWith', hqr, hqd]
      rfl
    have hrefl : (List.zipWith whereDiv
        (List.zipWith FVal.sub sample.counts dark.counts)
        (List.zipWith FVal.sub reference.counts dark.counts)).get? i
        = some (whereDiv (.fin (qs - qd)) (.fin (qr - qd))) := by
      rw [List.get?_zipWith', hnum, hden]
      rfl
    constructor
    · intro hzero
      rw [hrefl]
      simp [whereDiv, hzero]
    · intro hnz
      rw [hrefl]
      have hne : FVal.fin (qr - qd) ≠ FVal.fin 0 := fun hc => hnz (by injection hc)
      simp [whereDiv, FVal.div, hne, hnz]

/-- The spec's example wavelength grid `[500, 600]`. -/
def wlGrid : List FVal := [FVal.fin 500, FVal.fin 600]

/-- The spec's example sample spectrum (counts `[50, 60]`). -/
def sampleSpec : Spectrum :=
  { wavelength_nm := wlGrid, counts := [FVal.fin 50, FVal.fin 60],
    ts_iso := "2025-01-01T00:00:00", settings_snapshot := {},
    serial := none, role := "sample" }

/-- The spec's example reference spectrum (counts `[100, 100]`). -/
def referenceSpec : Spectrum :=
  { wavelength_nm := wlGrid, counts := [FVal.fin 100, FVal.fin 100],
    ts_iso := "2025-01-01T00:00:00", settings_snapshot := {},
    serial := none, role := "reference" }

/-- The spec's example dark spectrum (counts `[0, 0]`). -/
def darkSpec : Spectrum :=
  { wavelength_nm := wlGrid, counts := [FVal.fin 0, FVal.fin 0],
    ts_iso := "2025-01-01T00:00:00", settings_snapshot := {},
    serial := none, role := "dark" }

/-- The spec's example evaluates to reflectance `[0.5, 0.6]`. -/
theorem example_reflectance_value :
    compute_reflectance sampleSpec referenceSpec darkSpec
      = .ok ([FVal.fin 500, FVal.fin 600], [FVal.fin (1/2), FVal.fin (3/5)]) := by
  have hfin : sampleSpec.wavelength_nm.all FVal.isFin = true := by decide
  have hok := compute_reflectance_ok sampleSpec referenceSpec darkSpec
    rfl rfl (allclose_self _ hfin) (allclose_self _ hfin) rfl rfl
  rw [hok]
  norm_num [sampleSpec, darkSpec, referenceSpec, wlGrid, whereDiv, FVal.sub, FVal.div]

/-- C1 witness: the spec's example — `wl=[500,600]`, sample `[50,60]`,
reference `[100,100]`, dark `[0,0]` — satisfies every hypothesis, and the
reflectance comes out `[0.5, 0.6]`. -/
theorem sfr_C1_witness :
    sampleSpec.wavelength_nm.length = sampleSpec.counts.length ∧
    referenceSpec.wavelength_nm.length = referenceSpec.counts.length ∧
    darkSpec.wavelength_nm.length = darkSpec.counts.length ∧
    sampleSpec.wavelength_nm = referenceSpec.wavelength_nm ∧
    sampleSpec.wavelength_nm = darkSpec.wavelength_nm ∧
    sampleSpec.wavelength_nm.all FVal.isFin = true ∧
    (∃ refl : List FVal,
      compute_reflectance sampleSpec referenceSpec darkSpec
        = .ok (sampleSpec.wavelength_nm, refl) ∧
      refl.length = sampleSpec.counts.length ∧
      ∀ (i : ℕ) (qs qr qd : ℚ),
        sampleSpec.counts.get? i = some (.fin qs) →
        referenceSpec.counts.get? i = some (.fin qr) →
        darkSpec.counts.get? i = some (.fin qd) →
        (qr - qd = 0 → refl.get? i = some FVal.nan) ∧
        (qr - qd ≠ 0 → refl.get? i = some (.fin ((qs - qd) / (qr - qd))))) ∧
    compute_reflectance sampleSpec referenceSpec darkSpec
      = .ok ([FVal.fin 500, FVal.fin 600], [FVal.fin (1/2), FVal.fin (3/5)]) := by
  have hfin : sampleSpec.wavelength_nm.all FVal.isFin = true := by decide
  refine ⟨rfl, rfl, rfl, rfl, rfl, hfin,
    sfr_C1_reflectance_elementwise sampleSpec referenceSpec darkSpec
      rfl rfl rfl rfl rfl hfin, ?_⟩
  exact example_reflectance_value

/-- C2 (amended): on Spectra satisfying the length invariant,
`compute_reflectance` raises a ValidationError exactly when the grids
differ in length or disagree beyond `np.allclose` tolerance; exactly
equal finite grids never raise. -/
theorem sfr_C2_validation_iff (sample reference dark : Spectrum)
    (hs : sample.wavelength_nm.length = sample.counts.length)
    (hr : reference.wavelength_nm.length = reference.counts.length)
    (hd : dark.wavelength_nm.length = dark.counts.length) :
    ((∃ msg, compute_reflectance sample reference dark
        = .error (.validationError msg)) ↔
      (sample.wavelength_nm.length ≠ reference.wavelength_nm.length ∨
       sample.wavelength_nm.length ≠ dark.wavelength_nm.length ∨
       ¬ (allclose sample.wavelength_nm reference.wavelength_nm = true ∧
          allclose sample.wavelength_nm dark.wavelength_nm = true))) ∧
    (sample.wavelength_nm = reference.wavelength_nm →
     sample.wavelength_nm = dark.wavelength_nm →
     sample.wavelength_nm.all FVal.isFin = true →
     ∃ out, compute_reflectance sample reference dark = .ok out) := by
  constructor
  · constructor
    · rintro ⟨msg, hmsg⟩
      by_contra hrhs
      push_neg at hrhs
      obtain ⟨h1, h2, h3⟩ := hrhs
      have hsd : sample.counts.length = dark.counts.length := by
        rw [← hs, ← hd, h2]
      have hrd : reference.counts.length = dark.counts.length := by
        rw [← hr, ← hd, ← h1, h2]
      rw [compute_reflectance_ok sample reference dark h1 h2 h3.1 h3.2 hsd hrd]
        at hmsg
      exact Except.noConfusion hmsg
    · rintro (h | h | h)
      · exact ⟨_, compute_reflectance_shape_error sample reference dark (Or.inl h)⟩
      · exact ⟨_, compute_reflectance_shape_error sample reference dark (Or.inr h)⟩
      · by_cases h1 : sample.wavelength_nm.length = reference.wavelength_nm.length
        · by_cases h2 : sample.wavelength_nm.length = dark.wavelength_nm.length
          · exact ⟨_, compute_reflectance_values_error sample reference dark h1 h2 h⟩
          · exact ⟨_, compute_reflectance_shape_error sample reference dark (Or.inr h2)⟩
        · exact ⟨_, compute_reflectance_shape_error sample reference dark (Or.inl h1)⟩
  · intro hgr hgd hfin
    have hsd : sample.counts.length = dark.counts.length := by
      rw [← hs, ← hd, hgd]
    have hrd : reference.counts.length = dark.counts.length := by
      rw [← hr, ← hd, ← hgr, hgd]
    exact ⟨_, compute_reflectance_ok sample reference dark
      (by rw [hgr]) (by rw [hgd])
      (by rw [hgr]; exact allclose_self _ (hgr ▸ hfin))
      (by rw [hgd]; exact allclose_self _ (hgd ▸ hfin))
      hsd hrd⟩

/-- A sample spectrum whose single wavelength is 500 nm. -/
def closeSample : Spectrum :=
  { wavelength_nm := [FVal.fin 500], counts := [FVal.fin 1],
    ts_iso := "2025-01-01T00:00:00", settings_snapshot := {},
    serial := none, role := "sample" }

/-- A reference spectrum whose single wavelength, 500.001 nm, differs from
the sample's but lies within `np.allclose` tolerance of it. -/
def closeReference : Spectrum :=
  { wavelength_nm := [FVal.fin (500 + 1/1000)], counts := [FVal.fin 2],
    ts_iso := "2025-01-01T00:00:00", settings_snapshot := {},
    serial := none, role := "reference" }

/-- A dark spectrum at 500 nm. -/
def closeDark : Spectrum :=
  { wavelength_nm := [FVal.fin 500], counts := [FVal.fin 0],
    ts_iso := "2025-01-01T00:00:00", settings_snapshot := {},
    serial := none, role := "dark" }

/-- C2 counterexample: the reference grid `[500.001]` is NOT numerically
equal to the sample/dark grid `[500]`, yet `compute_reflectance` does not
raise — it succeeds, because the code compares grids with `np.allclose`
tolerance rather than exact equality. -/
theorem sfr_C2_counterexample :
    closeSample.wavelength_nm ≠ closeReference.wavelength_nm ∧
    compute_reflectance closeSample closeReference closeDark
      = .ok ([FVal.fin 500], [FVal.fin (1/2)]) := by
  constructor
  · intro h
    simp only [closeSample, closeReference, List.cons.injEq, and_true,
      FVal.fin.injEq] at h
    norm_num at h
  · have hcr : allclose closeSample.wavelength_nm closeReference.wavelength_nm
        = true := by
      norm_num [closeSample, closeReference, allclose, isclose, np_atol, np_rtol]
      rw [abs_of_pos, abs_of_pos] <;> norm_num
    have hcd : allclose closeSample.wavelength_nm closeDark.wavelength_nm
        = true := by
      norm_num [closeSample, closeDark, allclose, isclose, np_atol, np_rtol]
    rw [compute_reflectance_ok closeSample closeReference closeDark
      rfl rfl hcr hcd rfl rfl]
    norm_num [closeSample, closeReference, closeDark, whereDiv, FVal.sub, FVal.div]

/-- C2 witness: the spec's matching-grid example satisfies the invariant
hypotheses; its grids are equal so no ValidationError is raised. -/
theorem sfr_C2_witness :
    sampleSpec.wavelength_nm.length = sampleSpec.counts.length ∧
    referenceSpec.wavelength_nm.length = referenceSpec.counts.length ∧
    darkSpec.wavelength_nm.length = darkSpec.counts.length ∧
    (((∃ msg, compute_reflectance sampleSpec referenceSpec darkSpec
        = .error (.validationError msg)) ↔
      (sampleSpec.wavelength_nm.length ≠ referenceSpec.wavelength_nm.length ∨
       sampleSpec.wavelength_nm.length ≠ darkSpec.wavelength_nm.length ∨
       ¬ (allclose sampleSpec.wavelength_nm referenceSpec.wavelength_nm = true ∧
          allclose sampleSpec.wavelength_nm darkSpec.wavelength_nm = true))) ∧
    (sampleSpec.wavelength_nm = referenceSpec.wavelength_nm →
     sampleSpec.wavelength_nm = darkSpec.wavelength_nm →
     sampleSpec.wavelength_nm.all FVal.isFin = true →
     ∃ out, compute_reflectance sampleSpec referenceSpec darkSpec = .ok out)) :=
  ⟨rfl, rfl, rfl, sfr_C2_validation_iff sampleSpec referenceSpec darkSpec rfl rfl rfl⟩

/-- C9: whenever `compute_reflectance` succeeds (on Spectra satisfying the
length invariant), the first component of its result is the sample's
wavelength array unchanged, and the reflectance array has that same
length. -/
theorem sfr_C9_success_shape (sample reference dark : Spectrum)
    (hs : sample.wavelength_nm.length = sample.counts.length)
    (hr : reference.wavelength_nm.length = reference.counts.length)
    (hd : dark.wavelength_nm.length = dark.counts.length)
    (lam refl : List FVal)
    (h : compute_reflectance sample reference dark = .ok (lam, refl)) :
    lam = sample.wavelength_nm ∧ refl.length = sample.wavelength_nm.length := by
  by_cases h1 : sample.wavelength_nm.length = reference.wavelength_nm.length
  · by_cases h2 : sample.wavelength_nm.length = dark.wavelength_nm.length
    · by_cases h3 : allclose sample.wavelength_nm reference.wavelength_nm = true ∧
        allclose sample.wavelength_nm dark.wavelength_nm = true
      · have hsd : sample.counts.length = dark.counts.length := by
          rw [← hs, ← hd, h2]
        have hrd : reference.counts.length = dark.counts.length := by
          rw [← hr, ← hd, ← h1, h2]
        rw [compute_reflectance_ok sample reference dark h1 h2 h3.1 h3.2 hsd hrd]
          at h
        have hpair := Except.ok.inj h
        have hlam : sample.wavelength_nm = lam := congrArg Prod.fst hpair
        have hrefl : List.zipWith whereDiv
            (List.zipWith FVal.sub sample.counts dark.counts)
            (List.zipWith FVal.sub reference.counts dark.counts) = refl :=
          congrArg Prod.snd hpair
        refine ⟨hlam.symm, ?_⟩
        rw [← hrefl]
        simp only [List.length_zipWith]
        omega
      · rw [compute_reflectance_values_error sample reference dark h1 h2 h3] at h
        exact Except.noConfusion h
    · rw [compute_reflectance_shape_error sample reference dark (Or.inr h2)] at h
      exact Except.noConfusion h
  · rw [compute_reflectance_shape_error sample reference dark (Or.inl h1)] at h
    exact Except.noConfusion h

/-- C9 witness: on the spec's example the returned grid is the sample's
`[500, 600]` and the reflectance `[0.5, 0.6]` has its length. -/
theorem sfr_C9_witness :
    sampleSpec.wavelength_nm.length = sampleSpec.counts.length ∧
    referenceSpec.wavelength_nm.length = referenceSpec.counts.length ∧
    darkSpec.wavelength_nm.length = darkSpec.counts.length ∧
    compute_reflectance sampleSpec referenceSpec darkSpec
      = .ok ([FVal.fin 500, FVal.fin 600], [FVal.fin (1/2), FVal.fin (3/5)]) ∧
    ([FVal.fin 500, FVal.fin 600] = sampleSpec.wavelength_nm ∧
      ([FVal.fin (1/2), FVal.fin (3/5)] : List FVal).length
        = sampleSpec.wavelength_nm.length) :=
  ⟨rfl, rfl, rfl, example_reflectance_value,
    sfr_C9_success_shape sampleSpec referenceSpec darkSpec rfl rfl rfl
      [FVal.fin 500, FVal.fin 600] [FVal.fin (1/2), FVal.fin (3/5)]
      example_reflectance_value⟩

/-- `Except.ok` bound into a continuation reduces to the continuation. -/
theorem exceptBind_ok {α β ε : Type} (a : α) (f : α → Except ε β) :
    (Except.ok a >>= f) = f a := rfl

/-- `pure` on `Except` is `Except.ok`. -/
theorem exceptPure_eq {α ε : Type} (a : α) : (pure a : Except ε α) = Except.ok a := rfl

/-- `get?` within bounds is `some`. -/
theorem get?_isSome_of_lt {α : Type} :
    ∀ (l : List α) (j : Nat), j < l.length → (l.get? j).isSome = true
  | [], j, h => absurd h (Nat.not_lt_zero j)
  | _ :: _, 0, _ => rfl
  | _ :: l, j + 1, h => get?_isSome_of_lt l j (Nat.lt_of_succ_lt_succ h)

/-- A successful `column` extraction returns one value per row. -/
theorem column_ok_length (rows : List (List FVal)) (j : Nat) (c : List FVal)
    (h : column rows j = .ok c) : c.length = rows.length := by
  by_cases hall : rows.all (fun r => decide (j < r.length)) = true
  · simp only [column, hall, if_pos] at h
    rw [← Except.ok.inj h]
    clear h
    induction rows with
    | nil => rfl
    | cons r rs ih =>
      simp only [List.all_cons, Bool.and_eq_true, decide_eq_true_eq] at hall
      obtain ⟨v, hv⟩ := Option.isSome_iff_exists.mp (get?_isSome_of_lt r j hall.1)
      simp only [List.filterMap_cons, hv, List.length_cons]
      rw [ih hall.2]
  · simp only [column, hall] at h
    simp at h

/-- What a successful `get_device_info` stores on the device record. -/
theorem get_device_info_ok (dev dev' : Spectrometer) (drv : AvaspecDriver)
    (h : get_device_info dev drv = .ok dev') :
    dev' = { dev with
             num_pixels := drv.getNumPixels.toNat,
             wavelengths := some (drv.getLambda.take drv.getNumPixels.toNat) } := by
  by_cases hh : dev.handleValid = true
  · by_cases hn : drv.getNumPixels < 1
    · simp only [get_device_info] at h
      rw [if_neg (not_not_intro hh), if_pos hn] at h
      exact Except.noConfusion h
    · simp only [get_device_info] at h
      rw [if_neg (not_not_intro hh), if_neg hn] at h
      exact (Except.ok.inj h).symm
  · simp only [get_device_info] at h
    rw [if_pos hh] at h
    exact Except.noConfusion h

/-- What a successful `single_measurement` returns: the stored wavelength
table, and the scope data truncated to the pixel count. -/
theorem single_measurement_ok (dev : Spectrometer) (drv : AvaspecDriver)
    (lam counts : List FVal)
    (h : single_measurement dev drv = .ok (lam, counts)) :
    dev.wavelengths = some lam ∧
    counts = drv.scopeData.take dev.num_pixels := by
  by_cases hh : dev.handleValid = true
  · cases hw : dev.wavelengths with
    | none =>
      simp only [single_measurement, hw] at h
      rw [if_neg (not_not_intro hh)] at h
      exact Except.noConfusion h
    | some lam0 =>
      simp only [single_measurement, hw] at h
      rw [if_neg (not_not_intro hh)] at h
      by_cases hz : dev.num_pixels = 0
      · rw [if_pos hz] at h
        exact Except.noConfusion h
      · rw [if_neg hz] at h
        by_cases hp : drv.prepareResult < 0
        · rw [if_pos hp] at h
          exact Except.noConfusion h
        · rw [if_neg hp] at h
          by_cases hm : drv.measureResult < 0
          · rw [if_pos hm] at h
            exact Except.noConfusion h
          · rw [if_neg hm] at h
            have hpair := Except.ok.inj h
            have hlam : lam0 = lam := congrArg Prod.fst hpair
            have hcounts : drv.scopeData.take dev.num_pixels = counts :=
              congrArg Prod.snd hpair
            exact ⟨congrArg some hlam, hcounts.symm⟩
  · simp only [single_measurement] at h
    rw [if_pos hh] at h
    exact Except.noConfusion h

/-- A successful `load_spectrum_csv` returns equal-length wavelength and
counts arrays (both are columns of the same row list). -/
theorem load_spectrum_csv_ok_lengths (file : CSVFile) (ts : String)
    (chan : ChannelKind) (sp : Spectrum)
    (h : load_spectrum_csv file ts = .ok (chan, sp)) :
    sp.wavelength_nm.length = sp.counts.length := by
  simp only [load_spectrum_csv] at h
  cases hload : loadtxt file.rows with
  | error e => rw [hload] at h; exact Except.noConfusion h
  | ok data =>
    rw [hload, exceptBind_ok] at h
    have step : ∀ data2 : List (List FVal),
        (do
          let wavelength ← column data2 0
          let counts ← column data2 1
          pure (infer_channel_from_file_and_data file.name wavelength,
            ({ wavelength_nm := wavelength,
               counts := counts,
               ts_iso := ts,
               settings_snapshot := {},
               serial := none,
               role := "sample" } : Spectrum))) = Except.ok (chan, sp) →
        sp.wavelength_nm.length = sp.counts.length := by
      intro data2 h2
      cases hw : column data2 0 with
      | error e => rw [hw] at h2; exact Except.noConfusion h2
      | ok wl =>
        rw [hw, exceptBind_ok] at h2
        cases hc : column data2 1 with
        | error e => rw [hc] at h2; exact Except.noConfusion h2
        | ok cs =>
          rw [hc, exceptBind_ok, exceptPure_eq] at h2
          have hsp : sp = { wavelength_nm := wl,
                            counts := cs,
                            ts_iso := ts,
                            settings_snapshot := {},
                            serial := none,
                            role := "sample" } :=
            (congrArg Prod.snd (Except.ok.inj h2)).symm
          rw [hsp]
          exact (column_ok_length data2 0 wl hw).trans
            (column_ok_length data2 1 cs hc).symm
    cases hd2 : reshape2d data with
    | error e => rw [hd2] at h; exact Except.noConfusion h
    | ok data2 => rw [hd2, exceptBind_ok] at h; exact step data2 h

/-- A concrete driver response: 2 pixels, 3-entry tables. -/
def witDriver : AvaspecDriver :=
  { getNumPixels := 2,
    getLambda := [FVal.fin 1, FVal.fin 2, FVal.fin 3],
    prepareResult := 0,
    measureResult := 0,
    scopeData := [FVal.fin 5, FVal.fin 6, FVal.fin 7] }

/-- A freshly activated device handle. -/
def witDevice : Spectrometer := { handle := some 1 }

/-- The device after `get_device_info` against `witDriver`. -/
def witDevice2 : Spectrometer :=
  { handle := some 1,
    num_pixels := 2,
    wavelengths := some [FVal.fin 1, FVal.fin 2] }

/-- A concrete two-row, two-column CSV file. -/
def witFile : CSVFile :=
  { name := "a.csv",
    comments := [],
    rows := [[Cell.num (FVal.fin 1), Cell.num (FVal.fin 10)],
             [Cell.num (FVal.fin 2), Cell.num (FVal.fin 20)]] }

/-- The Spectrum `witFile` loads into. -/
def witLoadedSpec : Spectrum :=
  { wavelength_nm := [FVal.fin 1, FVal.fin 2],
    counts := [FVal.fin 10, FVal.fin 20],
    ts_iso := "2025-01-01T00:00:00",
    settings_snapshot := {},
    serial := none,
    role := "sample" }

/-- C8: a Spectrum built by the program satisfies
`len(wavelength_nm) == len(counts)`.  Live path: after a successful
`get_device_info` whose driver tables hold at least `num_pixels` entries,
`single_measurement` yields equal-length wavelength and counts arrays.
Load path: `load_spectrum_csv` always yields equal-length arrays.
(Spectrum is a frozen dataclass: no construction site mutates one.) -/
theorem sfr_C8_length_invariant :
    (∀ (dev dev' : Spectrometer) (drv drv2 : AvaspecDriver)
        (lam counts : List FVal),
      get_device_info dev drv = .ok dev' →
      dev'.num_pixels ≤ drv.getLambda.length →
      dev'.num_pixels ≤ drv2.scopeData.length →
      single_measurement dev' drv2 = .ok (lam, counts) →
      lam.length = counts.length) ∧
    (∀ (file : CSVFile) (ts : String) (chan : ChannelKind) (sp : Spectrum),
      load_spectrum_csv file ts = .ok (chan, sp) →
      sp.wavelength_nm.length = sp.counts.length) := by
  constructor
  · intro dev dev' drv drv2 lam counts hinfo hlam hscope hmeas
    have hdev' := get_device_info_ok dev dev' drv hinfo
    obtain ⟨hw, hc⟩ := single_measurement_ok dev' drv2 lam counts hmeas
    subst hdev'
    simp only [List.length_take] at *
    have hlam' : drv.getLambda.take drv.getNumPixels.toNat = lam :=
      Option.some.inj hw
    rw [← hlam', hc]
    simp only [List.length_take]
    omega
  · exact load_spectrum_csv_ok_lengths

/-- C8 witness: a concrete device measurement and a concrete file load
both yield equal-length arrays. -/
theorem sfr_C8_witness :
    get_device_info witDevice witDriver = .ok witDevice2 ∧
    witDevice2.num_pixels ≤ witDriver.getLambda.length ∧
    witDevice2.num_pixels ≤ witDriver.scopeData.length ∧
    single_measurement witDevice2 witDriver
      = .ok ([FVal.fin 1, FVal.fin 2], [FVal.fin 5, FVal.fin 6]) ∧
    ([FVal.fin 1, FVal.fin 2] : List FVal).length
      = ([FVal.fin 5, FVal.fin 6] : List FVal).length ∧
    load_spectrum_csv witFile "2025-01-01T00:00:00"
      = .ok (ChannelKind.VIS, witLoadedSpec) ∧
    witLoadedSpec.wavelength_nm.length = witLoadedSpec.counts.length :=
  ⟨rfl, by decide, by decide, rfl,
    sfr_C8_length_invariant.1 witDevice witDevice2 witDriver witDriver
      [FVal.fin 1, FVal.fin 2] [FVal.fin 5, FVal.fin 6]
      rfl (by decide) (by decide) rfl,
    rfl,
    sfr_C8_length_invariant.2 witFile "2025-01-01T00:00:00"
      ChannelKind.VIS witLoadedSpec rfl⟩

/-- C7: a repeated run with count 5 on exactly one connected channel,
started from cleared buffers and never cancelled, appends exactly 5
spectra to that channel's repeats buffer and none to the other's; and the
completion save makes exactly one repeats-CSV call per channel whose
buffer is non-empty (so exactly one call here). -/
theorem sfr_C7_repeated_run (runningAt : Nat → Bool)
    (hrun : ∀ i, i < 5 → runningAt i = true) :
    ((applyRepeatEvents (repeatedRunEmits true false runningAt 5 0)
        clearedBuffers).vis.length = 5 ∧
     (applyRepeatEvents (repeatedRunEmits true false runningAt 5 0)
        clearedBuffers).nir.length = 0 ∧
     saveRepeatedCalls (applyRepeatEvents
        (repeatedRunEmits true false runningAt 5 0) clearedBuffers)
       = [ChannelKind.VIS]) ∧
    ((applyRepeatEvents (repeatedRunEmits false true runningAt 5 0)
        clearedBuffers).vis.length = 0 ∧
     (applyRepeatEvents (repeatedRunEmits false true runningAt 5 0)
        clearedBuffers).nir.length = 5 ∧
     saveRepeatedCalls (applyRepeatEvents
        (repeatedRunEmits false true runningAt 5 0) clearedBuffers)
       = [ChannelKind.NIR]) ∧
    (∀ st : RepeatsBuffers,
      (ChannelKind.VIS ∈ saveRepeatedCalls st ↔ st.vis ≠ []) ∧
      (ChannelKind.NIR ∈ saveRepeatedCalls st ↔ st.nir ≠ []) ∧
      (saveRepeatedCalls st).Nodup) := by
  have h0 := hrun 0 (by norm_num)
  have h1 := hrun 1 (by norm_num)
  have h2 := hrun 2 (by norm_num)
  have h3 := hrun 3 (by norm_num)
  have h4 := hrun 4 (by norm_num)
  refine ⟨?_, ?_, ?_⟩
  · simp [repeatedRunEmits, h0, h1, h2, h3, h4, applyRepeatEvents,
      clearedBuffers, saveRepeatedCalls]
  · simp [repeatedRunEmits, h0, h1, h2, h3, h4, applyRepeatEvents,
      clearedBuffers, saveRepeatedCalls]
  · intro st
    by_cases hv : st.vis = [] <;> by_cases hn : st.nir = [] <;>
      simp [saveRepeatedCalls, hv, hn]

/-- C7 witness: the never-cancelled run (`running` always true) with VIS
connected alone. -/
theorem sfr_C7_witness :
    (∀ i, i < 5 → (fun _ => true) i = true) ∧
    (((applyRepeatEvents (repeatedRunEmits true false (fun _ => true) 5 0)
        clearedBuffers).vis.length = 5 ∧
     (applyRepeatEvents (repeatedRunEmits true false (fun _ => true) 5 0)
        clearedBuffers).nir.length = 0 ∧
     saveRepeatedCalls (applyRepeatEvents
        (repeatedRunEmits true false (fun _ => true) 5 0) clearedBuffers)
       = [ChannelKind.VIS]) ∧
    ((applyRepeatEvents (repeatedRunEmits false true (fun _ => true) 5 0)
        clearedBuffers).vis.length = 0 ∧
     (applyRepeatEvents (repeatedRunEmits false true (fun _ => true) 5 0)
        clearedBuffers).nir.length = 5 ∧
     saveRepeatedCalls (applyRepeatEvents
        (repeatedRunEmits false true (fun _ => true) 5 0) clearedBuffers)
       = [ChannelKind.NIR]) ∧
    (∀ st : RepeatsBuffers,
      (ChannelKind.VIS ∈ saveRepeatedCalls st ↔ st.vis ≠ []) ∧
      (ChannelKind.NIR ∈ saveRepeatedCalls st ↔ st.nir ≠ []) ∧
      (saveRepeatedCalls st).Nodup)) :=
  ⟨fun _ _ => rfl, sfr_C7_repeated_run (fun _ => true) (fun _ _ => rfl)⟩

/-- On an all-numeric row, extracting the numeric values preserves the
width. -/
theorem row_filterMap_length (r : List Cell)
    (h : r.all (fun c => match c with | .num _ => true | .junk => false) = true) :
    (r.filterMap (fun c => match c with | .num v => some v | .junk => none)).length
      = r.length := by
  induction r with
  | nil => rfl
  | cons c cs ih =>
    simp only [List.all_cons, Bool.and_eq_true] at h
    cases c with
    | num v =>
      simp only [List.filterMap_cons, List.length_cons]
      rw [ih h.2]
    | junk => simp at h

/-- On an all-numeric, uniform-width table that is non-empty and at least
two columns wide, `loadtxt` followed by the reshape yields exactly the
numeric values of the rows. -/
theorem loadtxt_reshape_wide (rows : List (List Cell))
    (hnum : allNumeric rows = true) (huni : uniformWidth rows = true)
    (hne : rows ≠ []) (hk : 2 ≤ (rows.headD []).length) :
    ∃ d, loadtxt rows = .ok d ∧ reshape2d d = .ok (numericVals rows) := by
  obtain ⟨r, rest, rfl⟩ : ∃ r rest, rows = r :: rest := by
    cases rows with
    | nil => exact absurd rfl hne
    | cons r rest => exact ⟨r, rest, rfl⟩
  have hrnum : r.all (fun c => match c with | .num _ => true | .junk => false)
      = true := by
    simp only [allNumeric, List.all_cons, Bool.and_eq_true] at hnum
    exact hnum.1
  have hfr : (r.filterMap
      (fun c => match c with | .num v => some v | .junk => none)).length
        = r.length :=
    row_filterMap_length r hrnum
  simp only [List.headD_cons] at hk
  obtain ⟨a, b, t, hab⟩ : ∃ a b t, r.filterMap
      (fun c => match c with | .num v => some v | .junk => none) = a :: b :: t := by
    have h2 : 2 ≤ (r.filterMap
        (fun c => match c with | .num v => some v | .junk => none)).length := by
      omega
    match hfm : r.filterMap (fun c => match c with | .num v => some v | .junk => none) with
    | [] => rw [hfm] at h2; simp at h2
    | [a] => rw [hfm] at h2; simp at h2
    | a :: b :: t => exact ⟨a, b, t, hfm⟩
  cases rest with
  | nil =>
    refine ⟨.vec (a :: b :: t), ?_, ?_⟩
    · simp only [loadtxt]
      rw [if_neg (not_not_intro hnum), if_neg (not_not_intro huni)]
      simp only [numericVals, List.map_cons, List.map_nil, hab]
    · simp only [reshape2d, numericVals, List.map_cons, List.map_nil, hab]
  | cons r2 rest2 =>
    refine ⟨.mat (numericVals (r :: r2 :: rest2)), ?_, rfl⟩
    simp only [loadtxt]
    rw [if_neg (not_not_intro hnum), if_neg (not_not_intro huni)]
    simp only [numericVals, List.map_cons, hab]
    rw [if_neg (show ¬_ by simp only [List.headD_cons, List.length_cons]; omega)]

/-- Every numeric-extracted row of an all-numeric uniform table has the
head row's width. -/
theorem numericVals_widths (rows : List (List Cell))
    (hnum : allNumeric rows = true) (huni : uniformWidth rows = true) :
    ∀ fr ∈ numericVals rows, fr.length = (rows.headD []).length := by
  intro fr hfr
  simp only [numericVals, List.mem_map] at hfr
  obtain ⟨r, hr, rfl⟩ := hfr
  have h1 : r.all (fun c => match c with | .num _ => true | .junk => false)
      = true := by
    rw [allNumeric, List.all_eq_true] at hnum
    exact hnum r hr
  have h2 : r.length = (rows.headD []).length := by
    rw [uniformWidth, List.all_eq_true] at huni
    simpa using huni r hr
  rw [row_filterMap_length r h1, h2]

/-- On a wide (≥ 2 columns) all-numeric uniform non-empty table, the load
succeeds and takes columns 0 and 1 of the numeric values as wavelength
and counts. -/
theorem load_spectrum_csv_wide (file : CSVFile) (ts : String)
    (hnum : allNumeric file.rows = true) (huni : uniformWidth file.rows = true)
    (hne : file.rows ≠ []) (hk : 2 ≤ (file.rows.headD []).length) :
    ∃ wl cs,
      column (numericVals file.rows) 0 = .ok wl ∧
      column (numericVals file.rows) 1 = .ok cs ∧
      load_spectrum_csv file ts
        = .ok (infer_channel_from_file_and_data file.name wl,
            { wavelength_nm := wl,
              counts := cs,
              ts_iso := ts,
              settings_snapshot := {},
              serial := none,
              role := "sample" }) := by
  have hw := numericVals_widths file.rows hnum huni
  have hcol0 : column (numericVals file.rows) 0
      = .ok ((numericVals file.rows).filterMap (fun r => r.get? 0)) := by
    simp only [column]
    rw [if_pos]
    rw [List.all_eq_true]
    intro fr hfr
    have := hw fr hfr
    simp only [decide_eq_true_eq]
    omega
  have hcol1 : column (numericVals file.rows) 1
      = .ok ((numericVals file.rows).filterMap (fun r => r.get? 1)) := by
    simp only [column]
    rw [if_pos]
    rw [List.all_eq_true]
    intro fr hfr
    have := hw fr hfr
    simp only [decide_eq_true_eq]
    omega
  refine ⟨_, _, hcol0, hcol1, ?_⟩
  obtain ⟨d, hd, hr⟩ := loadtxt_reshape_wide file.rows hnum huni hne hk
  simp only [load_spectrum_csv]
  rw [hd, exceptBind_ok, hr, exceptBind_ok, hcol0, exceptBind_ok,
    hcol1, exceptBind_ok, exceptPure_eq]

/-- An unparsable table — a non-numeric token or ragged row widths —
makes the load fail with the FormatError. -/
theorem load_spectrum_csv_format_error (file : CSVFile) (ts : String)
    (h : ¬ (allNumeric file.rows = true ∧ uniformWidth file.rows = true)) :
    load_spectrum_csv file ts = .error .formatError := by
  simp only [load_spectrum_csv, loadtxt]
  by_cases h1 : allNumeric file.rows = true
  · have h2 : ¬ uniformWidth file.rows = true := fun h2 => h ⟨h1, h2⟩
    rw [if_neg (not_not_intro h1), if_pos h2]
    rfl
  · rw [if_pos h1]
    rfl

/-- An empty data block loads to an IndexError: the empty 1-D array is
reshaped to one empty row, whose column 0 does not exist. -/
theorem load_spectrum_csv_empty (file : CSVFile) (ts : String)
    (h : file.rows = []) : load_spectrum_csv file ts = .error .indexError := by
  obtain ⟨name, comments, rows⟩ := file
  simp only at h
  subst h
  rfl

/-- A single-value file parses to a 0-D array, which is not reshaped, so
column indexing raises an IndexError. -/
theorem load_spectrum_csv_single_cell (file : CSVFile) (ts : String)
    (v : FVal) (h : file.rows = [[Cell.num v]]) :
    load_spectrum_csv file ts = .error .indexError := by
  obtain ⟨name, comments, rows⟩ := file
  simp only at h
  subst h
  rfl

/-- A single-column table with at least two rows loads successfully but
transposed: the squeezed 1-D column is reshaped into one ROW, so the
first two ROWS of the file become the one-point wavelength and counts
arrays. -/
theorem load_spectrum_csv_single_column (file : CSVFile) (ts : String)
    (hnum : allNumeric file.rows = true) (huni : uniformWidth file.rows = true)
    (r1 r2 : List Cell) (rest : List (List Cell))
    (hrows : file.rows = r1 :: r2 :: rest)
    (hk : (file.rows.headD []).length = 1) :
    ∃ v1 v2 frest,
      (numericVals file.rows).filterMap List.head? = v1 :: v2 :: frest ∧
      load_spectrum_csv file ts
        = .ok (infer_channel_from_file_and_data file.name [v1],
            { wavelength_nm := [v1],
              counts := [v2],
              ts_iso := ts,
              settings_snapshot := {},
              serial := none,
              role := "sample" }) := by
  have hw := numericVals_widths file.rows hnum huni
  have hf1 : (r1.filterMap
      (fun c => match c with | .num v => some v | .junk => none)).length = 1 := by
    have : r1.filterMap (fun c => match c with | .num v => some v | .junk => none)
        ∈ numericVals file.rows := by
      rw [hrows]
      simp [numericVals]
    rw [hw _ this, hk]
  have hf2 : (r2.filterMap
      (fun c => match c with | .num v => some v | .junk => none)).length = 1 := by
    have : r2.filterMap (fun c => match c with | .num v => some v | .junk => none)
        ∈ numericVals file.rows := by
      rw [hrows]
      simp [numericVals]
    rw [hw _ this, hk]
  obtain ⟨v1, hv1⟩ := List.length_eq_one.mp hf1
  obtain ⟨v2, hv2⟩ := List.length_eq_one.mp hf2
  refine ⟨v1, v2, (numericVals rest).filterMap List.head?, ?_, ?_⟩
  · rw [hrows]
    simp only [numericVals, List.map_cons, hv1, hv2, List.filterMap_cons]
    rfl
  · have hload : loadtxt file.rows
        = .ok (.vec (v1 :: v2 :: (numericVals rest).filterMap List.head?)) := by
      simp only [loadtxt]
      rw [if_neg (not_not_intro hnum), if_neg (not_not_intro huni), hrows]
      simp only [numericVals, List.map_cons, hv1, hv2]
      rw [if_pos (by simp)]
      simp only [List.filterMap_cons, Except.ok.injEq, NDArr.vec.injEq]
      rfl
    simp only [load_spectrum_csv]
    rw [hload, exceptBind_ok]
    simp only [reshape2d, exceptBind_ok]
    have hc0 : column [v1 :: v2 :: (numericVals rest).filterMap List.head?] 0
        = .ok [v1] := by
      simp only [column, List.all_cons, List.all_nil, Bool.and_true,
        decide_eq_true_eq, List.length_cons]
      rw [if_pos (by omega)]
      rfl
    have hc1 : column [v1 :: v2 :: (numericVals rest).filterMap List.head?] 1
        = .ok [v2] := by
      simp only [column, List.all_cons, List.all_nil, Bool.and_true,
        decide_eq_true_eq, List.length_cons]
      rw [if_pos (by omega)]
      rfl
    rw [hc0, exceptBind_ok, hc1, exceptBind_ok, exceptPure_eq]

/-- Column 0 of the two-column table built from pairs is the first
components. -/
theorem filterMap_pairs_get0 (ps : List (FVal × FVal)) :
    (ps.map (fun p => [p.1, p.2])).filterMap (fun r => r.get? 0)
      = ps.map Prod.fst := by
  induction ps with
  | nil => rfl
  | cons p ps ih =>
    simp only [List.map_cons, List.filterMap_cons]
    rw [ih]
    rfl

/-- Column 1 of the two-column table built from pairs is the second
components. -/
theorem filterMap_pairs_get1 (ps : List (FVal × FVal)) :
    (ps.map (fun p => [p.1, p.2])).filterMap (fun r => r.get? 1)
      = ps.map Prod.snd := by
  induction ps with
  | nil => rfl
  | cons p ps ih =>
    simp only [List.map_cons, List.filterMap_cons]
    rw [ih]
    rfl

/-- The numeric values of the rows written by the CSV writer are exactly
the wavelength/count pairs. -/
theorem numericVals_pairs (ps : List (FVal × FVal)) :
    numericVals (ps.map (fun p => [Cell.num p.1, Cell.num p.2]))
      = ps.map (fun p => [p.1, p.2]) := by
  induction ps with
  | nil => rfl
  | cons p ps ih =>
    simp only [numericVals, List.map_cons] at ih ⊢
    rw [ih]
    rfl

/-- The rows written by the CSV writer are all-numeric. -/
theorem allNumeric_pairs (ps : List (FVal × FVal)) :
    allNumeric (ps.map (fun p => [Cell.num p.1, Cell.num p.2])) = true := by
  induction ps with
  | nil => rfl
  | cons p ps ih =>
    simp only [allNumeric, List.map_cons, List.all_cons] at ih ⊢
    rw [ih]
    rfl

/-- The rows written by the CSV writer have uniform width 2. -/
theorem uniformWidth_pairs (ps : List (FVal × FVal)) :
    uniformWidth (ps.map (fun p => [Cell.num p.1, Cell.num p.2])) = true := by
  cases ps with
  | nil => rfl
  | cons p ps =>
    simp only [uniformWidth, List.map_cons, List.headD_cons, List.all_cons,
      List.all_eq_true, Bool.and_eq_true]
    refine ⟨by simp, ?_⟩
    intro r hr
    simp only [List.mem_map] at hr
    obtain ⟨q, _, rfl⟩ := hr
    simp

/-- C3 (amended): for every Spectrum with at least one data point (and the
length invariant), saving with the single-spectrum CSV writer and loading
the file back returns the wavelength and counts arrays exactly, with the
loaded Spectrum's settings reset to defaults and its role reset to
`sample` — header metadata is not round-tripped. -/
theorem sfr_C3_roundtrip (channel : ChannelKind) (spectrum : Spectrum)
    (ts ts2 : String) (hint : Option String)
    (hlen : spectrum.wavelength_nm.length = spectrum.counts.length)
    (hne : spectrum.wavelength_nm ≠ []) :
    ∃ chan',
      load_spectrum_csv (save_spectrum_csv channel spectrum ts hint) ts2
        = .ok (chan',
            { wavelength_nm := spectrum.wavelength_nm,
              counts := spectrum.counts,
              ts_iso := ts2,
              settings_snapshot := {},
              serial := none,
              role := "sample" }) := by
  have hrows : (save_spectrum_csv channel spectrum ts hint).rows
      = (List.zip spectrum.wavelength_nm spectrum.counts).map
          (fun p => [Cell.num p.1, Cell.num p.2]) := rfl
  have hzne : List.zip spectrum.wavelength_nm spectrum.counts ≠ [] := by
    intro h
    have := congrArg List.length h
    simp only [List.length_zip, List.length_nil] at this
    have : spectrum.wavelength_nm.length = 0 := by omega
    exact hne (List.length_eq_zero.mp this)
  obtain ⟨p0, ps', hps⟩ : ∃ p0 ps',
      List.zip spectrum.wavelength_nm spectrum.counts = p0 :: ps' := by
    cases hz : List.zip spectrum.wavelength_nm spectrum.counts with
    | nil => exact absurd hz hzne
    | cons p0 ps' => exact ⟨p0, ps', rfl⟩
  have hN : (save_spectrum_csv channel spectrum ts hint).rows ≠ [] := by
    rw [hrows, hps]
    simp
  have hK : 2 ≤ ((save_spectrum_csv channel spectrum ts hint).rows.headD []).length := by
    rw [hrows, hps]
    simp
  obtain ⟨wlc, csc, hc0, hc1, hload⟩ :=
    load_spectrum_csv_wide (save_spectrum_csv channel spectrum ts hint) ts2
      (by rw [hrows]; exact allNumeric_pairs _)
      (by rw [hrows]; exact uniformWidth_pairs _)
      hN hK
  have hvals : numericVals (save_spectrum_csv channel spectrum ts hint).rows
      = (List.zip spectrum.wavelength_nm spectrum.counts).map
          (fun p => [p.1, p.2]) := by
    rw [hrows]
    exact numericVals_pairs _
  have h0 : column (numericVals (save_spectrum_csv channel spectrum ts hint).rows) 0
      = .ok spectrum.wavelength_nm := by
    rw [hvals]
    simp only [column]
    rw [if_pos (by
      rw [List.all_eq_true]
      intro r hr
      simp only [List.mem_map] at hr
      obtain ⟨q, _, rfl⟩ := hr
      simp)]
    rw [filterMap_pairs_get0]
    rw [List.map_fst_zip _ _ (le_of_eq hlen)]
  have h1 : column (numericVals (save_spectrum_csv channel spectrum ts hint).rows) 1
      = .ok spectrum.counts := by
    rw [hvals]
    simp only [column]
    rw [if_pos (by
      rw [List.all_eq_true]
      intro r hr
      simp only [List.mem_map] at hr
      obtain ⟨q, _, rfl⟩ := hr
      simp)]
    rw [filterMap_pairs_get1]
    rw [List.map_snd_zip _ _ (le_of_eq hlen.symm)]
  have hwl : wlc = spectrum.wavelength_nm :=
    Except.ok.inj (hc0.symm.trans h0)
  have hcs : csc = spectrum.counts :=
    Except.ok.inj (hc1.symm.trans h1)
  rw [hwl, hcs] at hload
  exact ⟨_, hload⟩

/-- On a parseable (all-numeric, uniform) table of non-blank lines, the
load lands in exactly one of three buckets: empty table (IndexError),
single 1x1 value (IndexError), or at least two values (success). -/
theorem load_result_cases (file : CSVFile) (ts : String)
    (hnum : allNumeric file.rows = true) (huni : uniformWidth file.rows = true)
    (hrne : ∀ r ∈ file.rows, r ≠ []) :
    (file.rows = [] ∧ load_spectrum_csv file ts = .error .indexError) ∨
    (∃ v, file.rows = [[Cell.num v]] ∧
      load_spectrum_csv file ts = .error .indexError) ∨
    (2 ≤ file.rows.length * (file.rows.headD []).length ∧
      ∃ out, load_spectrum_csv file ts = .ok out) := by
  cases hrows : file.rows with
  | nil => exact Or.inl ⟨rfl, load_spectrum_csv_empty file ts hrows⟩
  | cons r1 rtail =>
    have hr1ne : r1 ≠ [] := hrne r1 (by rw [hrows]; exact List.mem_cons_self _ _)
    have hk1 : 1 ≤ r1.length := by
      cases hq : r1 with
      | nil => exact absurd hq hr1ne
      | cons c cs => simp
    cases rtail with
    | nil =>
      by_cases hk : 2 ≤ r1.length
      · refine Or.inr (Or.inr ⟨?_, ?_⟩)
        · simp only [List.length_cons, List.length_nil, List.headD_cons]
          omega
        · obtain ⟨wl, cs, _, _, hload⟩ :=
            load_spectrum_csv_wide file ts hnum huni
              (by rw [hrows]; simp) (by rw [hrows]; simpa using hk)
          exact ⟨_, hload⟩
      · have hlen1 : r1.length = 1 := by omega
        obtain ⟨c, hc⟩ := List.length_eq_one.mp hlen1
        have hcnum : ∃ v, c = Cell.num v := by
          rw [allNumeric, List.all_eq_true] at hnum
          have := hnum r1 (by rw [hrows]; exact List.mem_cons_self _ _)
          rw [List.all_eq_true] at this
          have hc2 := this c (by rw [hc]; exact List.mem_cons_self _ _)
          cases c with
          | num v => exact ⟨v, rfl⟩
          | junk => simp at hc2
        obtain ⟨v, rfl⟩ := hcnum
        refine Or.inr (Or.inl ⟨v, ?_, ?_⟩)
        · rw [hc]
        · exact load_spectrum_csv_single_cell file ts v (by rw [hrows, hc])
    | cons r2 rest =>
      by_cases hk : 2 ≤ r1.length
      · refine Or.inr (Or.inr ⟨?_, ?_⟩)
        · simp only [List.length_cons, List.headD_cons]
          calc 2 = 1 * 2 := by norm_num
            _ ≤ (rest.length + 1 + 1) * r1.length := Nat.mul_le_mul (by omega) hk
        · obtain ⟨wl, cs, _, _, hload⟩ :=
            load_spectrum_csv_wide file ts hnum huni
              (by rw [hrows]; simp) (by rw [hrows]; simpa using hk)
          exact ⟨_, hload⟩
      · have hlen1 : r1.length = 1 := by omega
        refine Or.inr (Or.inr ⟨?_, ?_⟩)
        · simp only [List.length_cons, List.headD_cons, hlen1]
          omega
        · obtain ⟨v1, v2, frest, _, hload⟩ :=
            load_spectrum_csv_single_column file ts hnum huni r1 r2 rest hrows
              (by rw [hrows]; simpa using hlen1)
          exact ⟨_, hload⟩

/-- The empty Spectrum: legal for the dataclass, but its saved CSV has no
data rows. -/
def emptySpec : Spectrum :=
  { wavelength_nm := [],
    counts := [],
    ts_iso := "2025-01-01T00:00:00",
    settings_snapshot := {},
    serial := none,
    role := "sample" }

/-- C3 counterexample: saving the empty Spectrum and loading the file back
does not return the original arrays — the loader fails (IndexError on the
empty data block), so the round-trip does not hold for every Spectrum. -/
theorem sfr_C3_counterexample :
    load_spectrum_csv
        (save_spectrum_csv ChannelKind.VIS emptySpec "20250101_000000" none)
        "2025-01-02T00:00:00"
      = .error .indexError :=
  load_spectrum_csv_empty _ _ rfl

/-- C3 witness: the `[500, 600]` example round-trips: arrays come back
exactly, settings reset to defaults, role reset to `sample`. -/
theorem sfr_C3_witness :
    sampleSpec.wavelength_nm.length = sampleSpec.counts.length ∧
    sampleSpec.wavelength_nm ≠ [] ∧
    ∃ chan',
      load_spectrum_csv
          (save_spectrum_csv ChannelKind.VIS sampleSpec "20250101_000000" none)
          "2025-01-02T00:00:00"
        = .ok (chan',
            { wavelength_nm := sampleSpec.wavelength_nm,
              counts := sampleSpec.counts,
              ts_iso := "2025-01-02T00:00:00",
              settings_snapshot := {},
              serial := none,
              role := "sample" }) :=
  ⟨rfl, by decide,
    sfr_C3_roundtrip ChannelKind.VIS sampleSpec "20250101_000000"
      "2025-01-02T00:00:00" none rfl (by decide)⟩

/-- C6 (amended): `load_spectrum_csv` fails with FormatError exactly when
the data rows cannot be parsed as an all-numeric table of uniform width;
given a parseable table of non-blank lines, it succeeds exactly when the
table holds at least two values (empty and single-value files fail with an
IndexError instead); with two or more columns the Spectrum takes columns 0
and 1; a single-column file with two or more rows is read transposed,
its first two rows becoming the one-point wavelength and counts arrays. -/
theorem sfr_C6_load_characterization :
    (∀ (file : CSVFile) (ts : String),
      (∀ r ∈ file.rows, r ≠ []) →
      (load_spectrum_csv file ts = .error .formatError ↔
        ¬ (allNumeric file.rows = true ∧ uniformWidth file.rows = true))) ∧
    (∀ (file : CSVFile) (ts : String),
      (∀ r ∈ file.rows, r ≠ []) →
      ((∃ out, load_spectrum_csv file ts = .ok out) ↔
        (allNumeric file.rows = true ∧ uniformWidth file.rows = true ∧
          2 ≤ file.rows.length * (file.rows.headD []).length))) ∧
    (∀ (file : CSVFile) (ts : String),
      allNumeric file.rows = true → uniformWidth file.rows = true →
      file.rows ≠ [] → 2 ≤ (file.rows.headD []).length →
      ∃ wl cs,
        column (numericVals file.rows) 0 = .ok wl ∧
        column (numericVals file.rows) 1 = .ok cs ∧
        load_spectrum_csv file ts
          = .ok (infer_channel_from_file_and_data file.name wl,
              { wavelength_nm := wl,
                counts := cs,
                ts_iso := ts,
                settings_snapshot := {},
                serial := none,
                role := "sample" })) ∧
    (∀ (file : CSVFile) (ts : String) (r1 r2 : List Cell)
        (rest : List (List Cell)),
      allNumeric file.rows = true → uniformWidth file.rows = true →
      file.rows = r1 :: r2 :: rest → (file.rows.headD []).length = 1 →
      ∃ v1 v2 frest,
        (numericVals file.rows).filterMap List.head? = v1 :: v2 :: frest ∧
        load_spectrum_csv file ts
          = .ok (infer_channel_from_file_and_data file.name [v1],
              { wavelength_nm := [v1],
                counts := [v2],
                ts_iso := ts,
                settings_snapshot := {},
                serial := none,
                role := "sample" })) := by
  refine ⟨?_, ?_, load_spectrum_csv_wide,
    fun file ts r1 r2 rest hnum huni hrows hk =>
      load_spectrum_csv_single_column file ts hnum huni r1 r2 rest hrows hk⟩
  · intro file ts hrne
    constructor
    · intro hfe
      intro hgood
      rcases load_result_cases file ts hgood.1 hgood.2 hrne with
        ⟨_, hload⟩ | ⟨v, _, hload⟩ | ⟨_, out, hload⟩
      · rw [hload] at hfe
        exact PyError.noConfusion (Except.error.inj hfe)
      · rw [hload] at hfe
        exact PyError.noConfusion (Except.error.inj hfe)
      · rw [hload] at hfe
        exact Except.noConfusion hfe
    · exact load_spectrum_csv_format_error file ts
  · intro file ts hrne
    constructor
    · rintro ⟨out, hok⟩
      by_cases hgood : allNumeric file.rows = true ∧ uniformWidth file.rows = true
      · refine ⟨hgood.1, hgood.2, ?_⟩
        rcases load_result_cases file ts hgood.1 hgood.2 hrne with
          ⟨_, hload⟩ | ⟨v, _, hload⟩ | ⟨hsize, _⟩
        · rw [hload] at hok
          exact Except.noConfusion hok
        · rw [hload] at hok
          exact Except.noConfusion hok
        · exact hsize
      · rw [load_spectrum_csv_format_error file ts hgood] at hok
        exact Except.noConfusion hok
    · rintro ⟨hnum, huni, hsize⟩
      rcases load_result_cases file ts hnum huni hrne with
        ⟨hrows, _⟩ | ⟨v, hrows, _⟩ | ⟨_, out, hload⟩
      · rw [hrows] at hsize
        simp at hsize
      · rw [hrows] at hsize
        simp at hsize
      · exact ⟨out, hload⟩

/-- A syntactically valid single-column, two-row CSV file. -/
def oneColFile : CSVFile :=
  { name := "mystery.csv",
    comments := [],
    rows := [[Cell.num (FVal.fin 1)], [Cell.num (FVal.fin 2)]] }

/-- C6 counterexample: a one-column file — NOT parseable as two-or-more
numeric columns — on which `load_spectrum_csv` nevertheless succeeds
(returning its first two rows as one-point wavelength and counts arrays)
instead of failing with a FormatError. -/
theorem sfr_C6_counterexample :
    (oneColFile.rows.headD []).length = 1 ∧
    load_spectrum_csv oneColFile "2025-01-01T00:00:00"
      = .ok (ChannelKind.VIS,
          { wavelength_nm := [FVal.fin 1],
            counts := [FVal.fin 2],
            ts_iso := "2025-01-01T00:00:00",
            settings_snapshot := {},
            serial := none,
            role := "sample" }) :=
  ⟨rfl, rfl⟩

/-- C6 witness: the success iff applied to a concrete 2x2 file. -/
theorem sfr_C6_witness :
    (∀ r ∈ witFile.rows, r ≠ []) ∧
    ((∃ out, load_spectrum_csv witFile "2025-01-01T00:00:00" = .ok out) ↔
      (allNumeric witFile.rows = true ∧ uniformWidth witFile.rows = true ∧
        2 ≤ witFile.rows.length * (witFile.rows.headD []).length)) :=
  ⟨by decide,
    sfr_C6_load_characterization.2.1 witFile "2025-01-01T00:00:00" (by decide)⟩

end SFR
